import Mathlib

/-!
Verification of the style translation-and-resolution engine of the `ogcmap`
repository (Angular + OpenLayers).  The definitions below are a shallow
embedding of the TypeScript in `src/app/map/map.component.ts` (value parsing,
style compilation, cache, feature style resolution, map-component fallback
table) and `src/app/layers/serices/bgtlayer.service.ts` (the BGT layer's
whole-layer-failure fallback table).  JavaScript dynamic values are modelled by
`JVal`, JavaScript objects by association lists, and JavaScript `Map` by an
association list with JS-`Map` update semantics.
-/

mutual
/-- A JavaScript/JSON value as it occurs in style documents and feature
property bags.  `null` doubles for the JS `null`; absence of a key
(`undefined`) is modelled with `Option` at lookup sites.  Arrays carry a
`JArr` so that functions over values can recurse structurally. -/
inductive JVal where
  | str (s : String)
  | num (q : ℚ)
  | boolean (b : Bool)
  | arr (elems : JArr)
  | null
/-- A JS array of values. -/
inductive JArr where
  | nil
  | cons (hd : JVal) (tl : JArr)
end

/-- The plain list of elements of a JS array. -/
def JArr.toList : JArr → List JVal
  | .nil => []
  | .cons h t => h :: t.toList

/-- JS truthiness of a value (`NaN` and `-0` do not arise in the model). -/
def truthy : JVal → Bool
  | .str s => s != ""
  | .num q => q != 0
  | .boolean b => b
  | .arr _ => true
  | .null => false

/-- Truthiness of a possibly-`undefined` value. -/
def truthyOpt : Option JVal → Bool
  | some v => truthy v
  | none => false

/-- JS `a || d` where `a` may be `undefined` and `d` is a present default. -/
def jsOr (v : Option JVal) (d : JVal) : JVal :=
  match v with
  | some w => if truthy w then w else d
  | none => d

/-- JS `a || b` where both sides may be `undefined`. -/
def jsOrUndef (a b : Option JVal) : Option JVal :=
  if truthyOpt a then a else b

/-- JS `x ? f x : undefined` (conditional construction on a truthy value). -/
def jsTernary {α : Type} (v : Option JVal) (f : JVal → α) : Option α :=
  match v with
  | some w => if truthy w then some (f w) else none
  | none => none

/-- Property lookup `obj[key]` on a JS object modelled as an association
list; `none` is `undefined`. -/
def getProp (obj : List (String × JVal)) (key : String) : Option JVal :=
  (obj.find? (fun p => p.1 == key)).map (fun p => p.2)

/-- `p` is a prefix of `s` (JS `String.prototype.startsWith`). -/
def strStartsWith (s p : String) : Bool :=
  p.data.isPrefixOf s.data

/-- JS `String.prototype.toLowerCase` (ASCII suffices for the inputs the
code feeds it: color names and keywords). -/
def strToLower (s : String) : String :=
  ⟨s.data.map Char.toLower⟩

/-- Replace the first occurrence of `pat` in a character list
(JS `String.prototype.replace` with a string pattern). -/
def charsReplaceFirst : List Char → List Char → List Char → List Char
  | [], pat, rep => if pat.isEmpty then rep else []
  | c :: rest, pat, rep =>
    if pat.isPrefixOf (c :: rest) then rep ++ (c :: rest).drop pat.length
    else c :: charsReplaceFirst rest pat rep

/-- JS `s.replace(pat, rep)` (first occurrence only). -/
def replaceFirst (s pat rep : String) : String :=
  ⟨charsReplaceFirst s.data pat.data rep.data⟩

/-- Decimal digits of a natural number. -/
def natStr (n : ℕ) : String :=
  ⟨Nat.toDigits 10 n⟩

/-- Left-pad a digit list with zeros to width `k`. -/
def padZeros (cs : List Char) (k : ℕ) : List Char :=
  List.replicate (k - cs.length) '0' ++ cs

/-- Rendering of a rational number the way a JS template literal renders the
corresponding JS number: integers without a point, terminating decimals in
shortest form.  (Non-terminating rationals do not correspond to JS doubles;
they get an arbitrary fraction rendering.) -/
def qToString (q : ℚ) : String :=
  let sign := if q < 0 then "-" else ""
  let n := q.num.natAbs
  let d := q.den
  match (List.range 31).find? (fun k => 10 ^ k % d == 0) with
  | some k =>
    if k = 0 then sign ++ natStr n
    else
      let m := n * (10 ^ k / d)
      sign ++ natStr (m / 10 ^ k) ++ "." ++ ⟨padZeros (Nat.toDigits 10 (m % 10 ^ k)) k⟩
  | none => sign ++ natStr n ++ "/" ++ natStr d

mutual
/-- JS stringification as performed by template literals (flag `false`) and
by `Array.prototype.join` on array elements (flag `true`, where `null`
renders empty). -/
def jvalToStringCore : JVal → Bool → String
  | .str s, _ => s
  | .num q, _ => qToString q
  | .boolean b, _ => if b then "true" else "false"
  | .null, inJoin => if inJoin then "" else "null"
  | .arr xs, _ => String.intercalate "," (jarrToStrings xs)
/-- Join-rendered elements of an array (`Array.prototype.join`). -/
def jarrToStrings : JArr → List String
  | .nil => []
  | .cons h t => jvalToStringCore h true :: jarrToStrings t
end

/-- `${v}` in a JS template literal. -/
def jvalToString (v : JVal) : String :=
  jvalToStringCore v false

example : qToString 1 = "1" := by decide
example : qToString (mkRat 1 2) = "0.5" := by decide
example : qToString (mkRat 3 2) = "1.5" := by decide
example : qToString (mkRat 1 20) = "0.05" := by decide
example : qToString (mkRat (-3) 4) = "-0.75" := by decide
example : replaceFirst "rgb(10,20,30)" "rgb(" "rgba(" = "rgba(10,20,30)" := by decide

/-- The fixed named-color table of `parseColor` (`namedColors` in the source). -/
def namedColors : List (String × String) :=
  [("white", "#ffffff"), ("black", "#000000"), ("red", "#ff0000"),
   ("green", "#00ff00"), ("blue", "#0000ff")]

/-- Is `c` a hexadecimal digit? -/
def isHexDigit (c : Char) : Bool :=
  ('0' ≤ c && c ≤ '9') || ('a' ≤ c && c ≤ 'f') || ('A' ≤ c && c ≤ 'F')

/-- Numeric value of a hexadecimal digit. -/
def hexDigitVal (c : Char) : ℕ :=
  if '0' ≤ c && c ≤ '9' then c.toNat - '0'.toNat
  else if 'a' ≤ c && c ≤ 'f' then c.toNat - 'a'.toNat + 10
  else if 'A' ≤ c && c ≤ 'F' then c.toNat - 'A'.toNat + 10
  else 0

/-- JS `parseInt(str, 16)`: the longest hex-digit prefix is parsed; an empty
prefix gives `NaN`, modelled as `none`.  (The `0x`/sign/whitespace frills of
`parseInt` never arise on the two-character slices the code feeds it.) -/
def jsParseIntHex (cs : List Char) : Option ℕ :=
  let ds := cs.takeWhile isHexDigit
  if ds.isEmpty then none
  else some (ds.foldl (fun a c => 16 * a + hexDigitVal c) 0)

/-- `parseInt(hex.substr(start, 2), 16)` on the digit part of a hex color. -/
def hexPairAt (hex : List Char) (start : ℕ) : Option ℕ :=
  jsParseIntHex ((hex.drop start).take 2)

/-- Rendering of a possibly-`NaN` color component in a template literal. -/
def numOrNaN : Option ℕ → String
  | some n => natStr n
  | none => "NaN"

/-- The hex branch of `parseColor`: three 2-digit pairs read from the
characters after the leading hash, templated into an `rgba(...)` string. -/
def rgbaOfHex (hex : List Char) (opacity : JVal) : String :=
  "rgba(" ++ numOrNaN (hexPairAt hex 0) ++ ", " ++ numOrNaN (hexPairAt hex 2) ++
    ", " ++ numOrNaN (hexPairAt hex 4) ++ ", " ++ jvalToString opacity ++ ")"

/-- JS `v === 1` (strict equality against the number one). -/
def jsStrictEqOne : JVal → Bool
  | .num q => q == 1
  | _ => false

/-- `parseColor` from `map.component.ts`, with a recursion-depth argument for
the named-color step.  The table's values all begin with a hash, so the
recursion terminates at the hash branch after one step; the fuel-exhausted
clause (returning the string unchanged) is unreachable from `parseColor`. -/
def parseColorGo : ℕ → JVal → JVal → String
  | fuel, color, opacity =>
    match color with
    | .str s =>
      if strStartsWith s "#" then
        rgbaOfHex (s.data.drop 1) opacity
      else if strStartsWith s "rgb" then
        if !jsStrictEqOne opacity && strStartsWith s "rgb(" then
          replaceFirst (replaceFirst s "rgb(" "rgba(") ")" (", " ++ jvalToString opacity ++ ")")
        else s
      else
        match (namedColors.find? (fun p => p.1 == strToLower s)).map (fun p => p.2) with
        | some hex =>
          if hex != "" then
            match fuel with
            | f + 1 => parseColorGo f (.str hex) opacity
            | 0 => s
          else s
        | none => s
    | _ => "rgba(0, 0, 0, 1)"

/-- `parseColor(color, opacity)` from `map.component.ts`.  The `opacity`
parameter is a raw JS value because call sites pass paint-property values
straight through. -/
def parseColor (color : JVal) (opacity : JVal) : String :=
  parseColorGo 2 color opacity

example : parseColor (.str "#ff0000") (.num 1) = "rgba(255, 0, 0, 1)" := by decide
example : parseColor (.str "rgb(10,20,30)") (.num (mkRat 1 2)) = "rgba(10,20,30, 0.5)" := by decide
example : parseColor (.str "white") (.num 1) = "rgba(255, 255, 255, 1)" := by decide
example : parseColor (.num 123) (.num 1) = "rgba(0, 0, 0, 1)" := by decide

/-- Reference algorithm for C5, transcribed from the specification's five
numbered steps (§4.2): 1. non-string → opaque black; 2. leading hash → three
2-digit hex pairs templated into `rgba`; 3. leading `rgb` → rewritten to
`rgba` with the opacity as fourth component when the opacity is not one and
the string is of the `rgb(...)` form, else unchanged; 4. the five named
colors recurse through their hex equivalents with the same opacity (matched
case-insensitively, and resolved here by step 2 directly since every hex
equivalent begins with a hash); 5. anything else unchanged.  The reading of
malformed hex digits is shared with the embedding of the code
(`rgbaOfHex`), since the specification's words fix no behavior there. -/
def parseColorSpec (value : JVal) (opacity : JVal) : String :=
  match value with
  | .str s =>
    if strStartsWith s "#" then
      rgbaOfHex (s.data.drop 1) opacity
    else if strStartsWith s "rgb" then
      if !jsStrictEqOne opacity && strStartsWith s "rgb(" then
        replaceFirst (replaceFirst s "rgb(" "rgba(") ")" (", " ++ jvalToString opacity ++ ")")
      else s
    else if strToLower s = "white" then rgbaOfHex "ffffff".data opacity
    else if strToLower s = "black" then rgbaOfHex "000000".data opacity
    else if strToLower s = "red" then rgbaOfHex "ff0000".data opacity
    else if strToLower s = "green" then rgbaOfHex "00ff00".data opacity
    else if strToLower s = "blue" then rgbaOfHex "0000ff".data opacity
    else s
  | _ => "rgba(0, 0, 0, 1)"

/-- `parseFont(fontFamily, fontSize)` from `map.component.ts`.  `none`
models an `undefined` argument, for which the TS default parameters `[]`
and `12` kick in.  The well-typed callers only ever supply an array of
family names or `undefined` for the first argument; other values are mapped
to the default family here. -/
def parseFont (fontFamily : Option JVal) (fontSize : Option JVal) : String :=
  let family :=
    match fontFamily with
    | some (.arr xs) =>
      if (xs.toList).length > 0 then
        String.intercalate ", " ((xs.toList).map (fun v => jvalToStringCore v true))
      else "Arial, sans-serif"
    | _ => "Arial, sans-serif"
  jvalToString ((fontSize).getD (.num 12)) ++ "px " ++ family

/-- `MapboxGLLayer` from `map.component.ts`.  `type` is kept as a raw string
so unsupported types (`raster`, `fill-extrusion`, ...) are representable;
`sourceLayer` embeds the `source-layer` field.  `minzoom`, `maxzoom` and
`filter` are carried for shape only; no embedded operation reads them. -/
structure MLayer where
  id : String
  type : String
  source : Option String := none
  sourceLayer : Option String := none
  minzoom : Option ℚ := none
  maxzoom : Option ℚ := none
  filter : Option JVal := none
  layout : Option (List (String × JVal)) := none
  paint : Option (List (String × JVal)) := none

/-- `MapboxGLStyle` from `map.component.ts`.  `sources`, `metadata` and the
other top-level fields are never read by the embedded compiler or resolver
and are carried only where shape matters. -/
structure MapboxGLStyle where
  version : ℚ := 8
  name : Option String := none
  layers : List MLayer
  glyphs : Option String := none
  sprite : Option String := none

/-- An OpenLayers `Fill` as the code constructs it. -/
structure FillStyle where
  color : String

/-- An OpenLayers `Stroke` as the code constructs it; fields the code leaves
out of the constructor options are `none`. -/
structure StrokeStyle where
  color : String
  width : JVal
  lineCap : Option JVal := none
  lineJoin : Option JVal := none
  lineDash : Option JVal := none

/-- An OpenLayers `Text` as the code constructs it.  `offsetX`/`offsetY`
are JS numbers; `none` stands for a `NaN` offset (a truthy but non-array
`text-offset`, or a non-numeric component). -/
structure TextStyle where
  text : JVal
  font : String
  fill : FillStyle
  stroke : Option StrokeStyle
  offsetX : Option ℚ
  offsetY : Option ℚ
  textAlign : JVal

/-- An OpenLayers `Circle` image as the code constructs it. -/
structure CircleStyle where
  radius : JVal
  fill : FillStyle
  stroke : Option StrokeStyle

/-- An OpenLayers `Icon` image as the code constructs it. -/
structure IconStyle where
  src : JVal
  scale : JVal

/-- The image slot of a `Style`: a circle marker or an icon. -/
inductive ImageStyle where
  | circle (c : CircleStyle)
  | icon (i : IconStyle)

/-- An OpenLayers `Style` as the code constructs it: any subset of fill,
stroke, text and image components. -/
structure Style where
  fill : Option FillStyle := none
  stroke : Option StrokeStyle := none
  text : Option TextStyle := none
  image : Option ImageStyle := none

/-- `layout['text-offset'][i] * 8` as a JS number; `none` models `NaN`
(non-array value or non-numeric component). -/
def jsIndexTimes8 (v : Option JVal) (i : ℕ) : Option ℚ :=
  match v with
  | some (.arr xs) =>
    match (xs.toList).get? i with
    | some (.num q) => some (q * 8)
    | _ => none
  | _ => none

/-- `createFillStyle` from `map.component.ts`. -/
def createFillStyle (layer : MLayer) : Style :=
  let paint := layer.paint.getD []
  { fill := some { color := parseColor (jsOr (getProp paint "fill-color") (.str "#000000"))
                             (jsOr (getProp paint "fill-opacity") (.num 1)) }
    stroke := jsTernary (getProp paint "fill-outline-color") (fun v =>
      { color := parseColor v (.num 1), width := .num 1 }) }

/-- `createLineStyle` from `map.component.ts`. -/
def createLineStyle (layer : MLayer) : Style :=
  let paint := layer.paint.getD []
  { stroke := some {
      color := parseColor (jsOr (getProp paint "line-color") (.str "#000000"))
                 (jsOr (getProp paint "line-opacity") (.num 1)),
      width := jsOr (getProp paint "line-width") (.num 1),
      lineCap := some (jsOr (getProp paint "line-cap") (.str "round")),
      lineJoin := some (jsOr (getProp paint "line-join") (.str "round")),
      lineDash := jsTernary (getProp paint "line-dasharray") (fun v => v) } }

/-- `createDefaultPointStyle` from `map.component.ts`: radius-3 circle, red
fill, white 1px stroke. -/
def createDefaultPointStyle : Style :=
  { image := some (.circle
      { radius := .num 3, fill := { color := "#ff0000" },
        stroke := some { color := "#ffffff", width := .num 1 } }) }

/-- `createSymbolStyle` from `map.component.ts`. -/
def createSymbolStyle (layer : MLayer) : Style :=
  let layout := layer.layout.getD []
  let paint := layer.paint.getD []
  let textField := getProp layout "text-field"
  if truthyOpt textField then
    { text := some {
        text := textField.getD .null,
        font := parseFont (getProp layout "text-font") (getProp layout "text-size"),
        fill := { color := parseColor (jsOr (getProp paint "text-color") (.str "#000000"))
                             (jsOr (getProp paint "text-opacity") (.num 1)) },
        stroke := jsTernary (getProp paint "text-halo-color") (fun v =>
          { color := parseColor v (.num 1),
            width := jsOr (getProp paint "text-halo-width") (.num 0) }),
        offsetX := if truthyOpt (getProp layout "text-offset") then
            jsIndexTimes8 (getProp layout "text-offset") 0 else some 0,
        offsetY := if truthyOpt (getProp layout "text-offset") then
            jsIndexTimes8 (getProp layout "text-offset") 1 else some 0,
        textAlign := jsOr (getProp layout "text-anchor") (.str "center") } }
  else
    let iconImage := getProp layout "icon-image"
    if truthyOpt iconImage then
      { image := some (.icon
          { src := iconImage.getD .null,
            scale := jsOr (getProp layout "icon-size") (.num 1) }) }
    else createDefaultPointStyle

/-- `createCircleStyle` from `map.component.ts`. -/
def createCircleStyle (layer : MLayer) : Style :=
  let paint := layer.paint.getD []
  { image := some (.circle {
      radius := jsOr (getProp paint "circle-radius") (.num 5),
      fill := { color := parseColor (jsOr (getProp paint "circle-color") (.str "#000000"))
                           (jsOr (getProp paint "circle-opacity") (.num 1)) },
      stroke := jsTernary (getProp paint "circle-stroke-color") (fun v =>
        { color := parseColor v (jsOr (getProp paint "circle-stroke-opacity") (.num 1)),
          width := jsOr (getProp paint "circle-stroke-width") (.num 0) }) }) }

/-- `createBackgroundStyle` from `map.component.ts`. -/
def createBackgroundStyle (layer : MLayer) : Style :=
  let paint := layer.paint.getD []
  { fill := some { color := parseColor (jsOr (getProp paint "background-color") (.str "#f0f0f0"))
                             (jsOr (getProp paint "background-opacity") (.num 1)) } }

/-- `convertMapboxLayerToOpenLayers` from `map.component.ts`: dispatch on
the layer type; unsupported types are logged and yield `null` (`none`). -/
def convertMapboxLayerToOpenLayers (layer : MLayer) : Option Style :=
  if layer.type = "fill" then some (createFillStyle layer)
  else if layer.type = "line" then some (createLineStyle layer)
  else if layer.type = "symbol" then some (createSymbolStyle layer)
  else if layer.type = "circle" then some (createCircleStyle layer)
  else if layer.type = "background" then some (createBackgroundStyle layer)
  else none

/-- The layer types `convertMapboxLayerToOpenLayers` supports. -/
def supportedType (t : String) : Bool :=
  t == "fill" || t == "line" || t == "symbol" || t == "circle" || t == "background"

/-- The style cache: a JS `Map` from layer id to compiled style, modelled as
an association list with `Map` update semantics (insertion order kept,
overwrite in place). -/
abbrev StyleCache := List (String × Style)

/-- `Map.prototype.get`. -/
def mapGet (m : StyleCache) (k : String) : Option Style :=
  (m.find? (fun p => p.1 == k)).map (fun p => p.2)

/-- `Map.prototype.set`: overwrite the entry at the existing key in place
(keys are unique in a JS `Map`, so replacing the first occurrence is
replacing the occurrence), else append the new entry at the end. -/
def mapSet : StyleCache → String → Style → StyleCache
  | [], k, v => [(k, v)]
  | p :: t, k, v => if p.1 == k then (k, v) :: t else p :: mapSet t k v

/-- One iteration of the `forEach` in `preprocessStyles`: compile the layer
and cache it under its id when compilation yields a style. -/
def processLayer (cache : StyleCache) (layer : MLayer) : StyleCache :=
  match convertMapboxLayerToOpenLayers layer with
  | some s => mapSet cache layer.id s
  | none => cache

/-- `preprocessStyles` from `map.component.ts`, with the component state
passed explicitly: a `null` document leaves the cache untouched (the early
return); otherwise the cache is cleared and rebuilt over the document's
layers in order. -/
def preprocessStyles (styleCache : StyleCache) (pdokStyle : Option MapboxGLStyle) : StyleCache :=
  match pdokStyle with
  | none => styleCache
  | some st => st.layers.foldl processLayer []

/-- `createDefaultStyleForGeometry` from `map.component.ts`: the fixed
per-geometry fallback table of the map component (the `switch` fallthrough
pairs are embedded as disjunctions). -/
def createDefaultStyleForGeometry (geometryType : String) : Style :=
  if geometryType = "Polygon" ∨ geometryType = "MultiPolygon" then
    { fill := some { color := "rgba(0, 100, 255, 0.3)" },
      stroke := some { color := "#0064ff", width := .num 2 } }
  else if geometryType = "LineString" ∨ geometryType = "MultiLineString" then
    { stroke := some { color := "#ff6600", width := .num 2 } }
  else if geometryType = "Point" ∨ geometryType = "MultiPoint" then
    createDefaultPointStyle
  else
    { stroke := some { color := "#666666", width := .num 1 },
      fill := some { color := "rgba(255, 255, 255, 0.8)" } }

/-- A rendered feature as the style function sees it: the geometry type from
`feature.getGeometry()?.getType()` (`none` when there is no geometry) and
the property bag from `feature.getProperties()`. -/
structure RFeature where
  geometryType : Option String
  properties : List (String × JVal)

/-- `properties['layer'] || properties['source-layer']` — the feature's
originating source-layer name as the resolver extracts it. -/
def sourceLayerNameOf (properties : List (String × JVal)) : Option JVal :=
  jsOrUndef (getProp properties "layer") (getProp properties "source-layer")

/-- JS `layerSourceLayer === sourceLayer` where the left side is the
document layer's (string) `source-layer` and the right side is the raw
feature property value: strict equality is string equality when both are
strings and false otherwise. -/
def jvalEqStrOpt (v : Option JVal) (s : Option String) : Bool :=
  match v, s with
  | some (.str a), some b => a == b
  | _, _ => false

/-- The geometry-type arm of the matching predicate in
`createPdokStyleFunction`: reached when the source-layer arm does not apply;
`if (geometryType)` guards the `switch`, so a missing or empty geometry type
yields no candidate. -/
def geometryCandidate (geometryType : Option String) (layer : MLayer) : Bool :=
  match geometryType with
  | some gt =>
    if gt = "" then false
    else if gt = "Polygon" ∨ gt = "MultiPolygon" then layer.type == "fill"
    else if gt = "LineString" ∨ gt = "MultiLineString" then layer.type == "line"
    else if gt = "Point" ∨ gt = "MultiPoint" then layer.type == "circle" || layer.type == "symbol"
    else false
  | none => false

/-- The `filter` predicate of `createPdokStyleFunction`: when both the
feature's source-layer value and the document layer's `source-layer` are
truthy, candidacy is decided by their strict equality alone; otherwise the
predicate falls through to geometry-type matching. -/
def layerFilter (sourceLayer : Option JVal) (geometryType : Option String) (layer : MLayer) : Bool :=
  if truthyOpt sourceLayer && (match layer.sourceLayer with
      | some s => s != ""
      | none => false) then
    jvalEqStrOpt sourceLayer layer.sourceLayer
  else geometryCandidate geometryType layer

/-- The style function returned by `createPdokStyleFunction`, with the
component state (`pdokStyle`, `styleCache`) passed explicitly.  Filters the
document's layers, takes the first match, looks its id up in the cache, and
otherwise falls back to the per-geometry default table.  A `null` document
skips matching entirely. -/
def pdokStyleFunction (pdokStyle : Option MapboxGLStyle) (styleCache : StyleCache)
    (feature : RFeature) : Style :=
  let geometryType := feature.geometryType
  let sourceLayer := sourceLayerNameOf feature.properties
  match pdokStyle with
  | some st =>
    match st.layers.filter (layerFilter sourceLayer geometryType) with
    | firstMatch :: _ =>
      (match mapGet styleCache firstMatch.id with
       | some cachedStyle => cachedStyle
       | none => createDefaultStyleForGeometry (geometryType.getD ""))
    | [] => createDefaultStyleForGeometry (geometryType.getD "")
  | none => createDefaultStyleForGeometry (geometryType.getD "")

/-- `createFallbackStyleFunction` from `bgtlayer.service.ts`: the BGT
layer's per-geometry style used when applying the fetched Mapbox style to
the layer fails (whole-layer failure). -/
def bgtFallbackStyle (geometryType : Option String) : Style :=
  if geometryType = some "Polygon" ∨ geometryType = some "MultiPolygon" then
    { fill := some { color := "rgba(200, 200, 200, 0.6)" },
      stroke := some { color := "#666666", width := .num 1 } }
  else if geometryType = some "LineString" ∨ geometryType = some "MultiLineString" then
    { stroke := some { color := "#333333", width := .num (mkRat 3 2) } }
  else if geometryType = some "Point" ∨ geometryType = some "MultiPoint" then
    { image := some (.circle
        { radius := .num 4, fill := { color := "#ff0000" },
          stroke := some { color := "#ffffff", width := .num 1 } }) }
  else
    { stroke := some { color := "#666666", width := .num 1 },
      fill := some { color := "rgba(255, 255, 255, 0.8)" } }

example : pdokStyleFunction none [] { geometryType := some "Polygon", properties := [] }
    = createDefaultStyleForGeometry "Polygon" := by rfl

lemma jsOr_of_truthy {v : JVal} {d : JVal} (h : truthy v = true) : jsOr (some v) d = v := by
  simp [jsOr, h]

lemma jsOr_of_falsy {o : Option JVal} {d : JVal} (h : truthyOpt o = false) : jsOr o d = d := by
  cases o with
  | none => rfl
  | some v => simp [truthyOpt] at h; simp [jsOr, h]

/-- C7: resolving any feature against a null style document returns the
fallback style for the feature's geometry bucket (the per-geometry default
table applied to the feature's geometry type, the empty string standing in
for a missing geometry).  The resolver is a total function, so no exception
can escape. -/
theorem resolveNullDocumentFallsBack (feature : RFeature) (cache : StyleCache) :
    pdokStyleFunction none cache feature
      = createDefaultStyleForGeometry (feature.geometryType.getD "") := by
  rfl

/-- C9: compilation is idempotent.  Compiling a document a second time —
starting from whatever cache the first compilation produced — yields exactly
the same cache, and more generally the compiled cache does not depend on the
pre-existing cache contents at all (the code clears the cache before the
single pass, and a null document leaves the cache untouched in both runs). -/
theorem preprocessStylesIdempotent :
    (∀ (cache : StyleCache) (doc : Option MapboxGLStyle),
        preprocessStyles (preprocessStyles cache doc) doc = preprocessStyles cache doc)
    ∧ (∀ (c₁ c₂ : StyleCache) (st : MapboxGLStyle),
        preprocessStyles c₁ (some st) = preprocessStyles c₂ (some st)) := by
  constructor
  · intro cache doc
    cases doc <;> rfl
  · intro c₁ c₂ st
    rfl

/-- C5: `parseColor` coincides with the specification's five-step reference
algorithm on every input value and opacity, and in particular on the quoted
examples. -/
theorem parseColorMeetsSpec :
    (∀ (value opacity : JVal), parseColor value opacity = parseColorSpec value opacity)
    ∧ parseColor (.str "#ff0000") (.num 1) = "rgba(255, 0, 0, 1)"
    ∧ parseColor (.str "rgb(10,20,30)") (.num (mkRat 1 2)) = "rgba(10,20,30, 0.5)" := by
  refine ⟨?_, by decide, by decide⟩
  intro value opacity
  cases value with
  | str s =>
    by_cases h1 : strStartsWith s "#"
    · simp [parseColor, parseColorGo, parseColorSpec, h1]
    · by_cases h2 : strStartsWith s "rgb"
      · simp [parseColor, parseColorGo, parseColorSpec, h1, h2]
      · by_cases hw : strToLower s = "white"
        · simp +decide [parseColor, parseColorGo, parseColorSpec, h1, h2, hw, namedColors]
        · by_cases hb : strToLower s = "black"
          · simp +decide [parseColor, parseColorGo, parseColorSpec, h1, h2, hw, hb, namedColors]
          · by_cases hr : strToLower s = "red"
            · simp +decide [parseColor, parseColorGo, parseColorSpec, h1, h2, hw, hb, hr,
                namedColors]
            · by_cases hg : strToLower s = "green"
              · simp +decide [parseColor, parseColorGo, parseColorSpec, h1, h2, hw, hb, hr, hg,
                  namedColors]
              · by_cases hu : strToLower s = "blue"
                · simp +decide [parseColor, parseColorGo, parseColorSpec, h1, h2, hw, hb, hr, hg,
                    hu, namedColors]
                · have hw' : (("white" : String) == strToLower s) = false := by
                    simp [beq_eq_false_iff_ne]; exact fun h => hw h.symm
                  have hb' : (("black" : String) == strToLower s) = false := by
                    simp [beq_eq_false_iff_ne]; exact fun h => hb h.symm
                  have hr' : (("red" : String) == strToLower s) = false := by
                    simp [beq_eq_false_iff_ne]; exact fun h => hr h.symm
                  have hg' : (("green" : String) == strToLower s) = false := by
                    simp [beq_eq_false_iff_ne]; exact fun h => hg h.symm
                  have hu' : (("blue" : String) == strToLower s) = false := by
                    simp [beq_eq_false_iff_ne]; exact fun h => hu h.symm
                  simp [parseColor, parseColorGo, parseColorSpec, h1, h2, hw, hb, hr, hg, hu,
                    namedColors, List.find?, hw', hb', hr', hg', hu']
  | num q => rfl
  | boolean b => rfl
  | arr xs => rfl
  | null => rfl

lemma mapGet_mapSet_self (m : StyleCache) (k : String) (v : Style) :
    mapGet (mapSet m k v) k = some v := by
  induction m with
  | nil => simp [mapSet, mapGet, List.find?]
  | cons p t ih =>
    by_cases hp : p.1 = k
    · simp [mapSet, mapGet, hp, List.find?]
    · simp only [mapSet, mapGet] at ih ⊢
      simp [List.find?, hp, ih]

lemma mapGet_mapSet_ne (m : StyleCache) (k k' : String) (v : Style) (hne : k' ≠ k) :
    mapGet (mapSet m k v) k' = mapGet m k' := by
  have hb : (k == k') = false := beq_eq_false_iff_ne.mpr (fun h => hne h.symm)
  induction m with
  | nil => simp [mapSet, mapGet, List.find?, hb]
  | cons p t ih =>
    by_cases hp : p.1 = k
    · have hpb : (p.1 == k) = true := beq_iff_eq.mpr hp
      have hpb' : (p.1 == k') = false := by rw [hp]; exact hb
      simp [mapSet, mapGet, hpb, hpb', List.find?, hb]
    · have hpb : (p.1 == k) = false := beq_eq_false_iff_ne.mpr hp
      cases hq : (p.1 == k') with
      | true => simp [mapSet, mapGet, hpb, hq, List.find?]
      | false =>
        simp only [mapGet] at ih
        simp [mapSet, mapGet, hpb, hq, List.find?, ih]

lemma mapGet_processLayer_ne (m : StyleCache) (l : MLayer) (k : String) (hne : l.id ≠ k) :
    mapGet (processLayer m l) k = mapGet m k := by
  unfold processLayer
  cases convertMapboxLayerToOpenLayers l with
  | none => rfl
  | some s => exact mapGet_mapSet_ne m l.id k s (fun h => hne h.symm)

lemma foldl_skip (ls : List MLayer) (m : StyleCache) (k : String)
    (h : ∀ l ∈ ls, l.id ≠ k) :
    mapGet (ls.foldl processLayer m) k = mapGet m k := by
  induction ls generalizing m with
  | nil => rfl
  | cons x t ih =>
    rw [List.foldl_cons, ih _ (fun l hl => h l (List.mem_cons_of_mem x hl)),
      mapGet_processLayer_ne m x k (h x (List.mem_cons_self x t))]

lemma mapGet_processLayer_pres (m : StyleCache) (l : MLayer) (k : String)
    (h : mapGet m k ≠ none) : mapGet (processLayer m l) k ≠ none := by
  unfold processLayer
  cases convertMapboxLayerToOpenLayers l with
  | none => exact h
  | some s =>
    by_cases hk : l.id = k
    · subst hk; simp [mapGet_mapSet_self]
    · rw [mapGet_mapSet_ne m l.id k s (fun hh => hk hh.symm)]; exact h

lemma foldl_pres (ls : List MLayer) (m : StyleCache) (k : String)
    (h : mapGet m k ≠ none) : mapGet (ls.foldl processLayer m) k ≠ none := by
  induction ls generalizing m with
  | nil => exact h
  | cons x t ih => exact ih _ (mapGet_processLayer_pres m x k h)

lemma foldl_present (ls : List MLayer) (m : StyleCache) (l : MLayer)
    (hmem : l ∈ ls) (hconv : (convertMapboxLayerToOpenLayers l).isSome = true) :
    mapGet (ls.foldl processLayer m) l.id ≠ none := by
  induction ls generalizing m with
  | nil => cases hmem
  | cons x t ih =>
    rcases List.mem_cons.mp hmem with hx | hx
    · subst hx
      rw [List.foldl_cons]
      apply foldl_pres
      unfold processLayer
      obtain ⟨s, hs⟩ := Option.isSome_iff_exists.mp hconv
      rw [hs]
      simp [mapGet_mapSet_self]
    · rw [List.foldl_cons]
      exact ih _ hx

lemma foldl_source (ls : List MLayer) (m : StyleCache) (k : String)
    (h : mapGet (ls.foldl processLayer m) k ≠ none) :
    mapGet m k ≠ none
      ∨ ∃ l, l ∈ ls ∧ l.id = k ∧ (convertMapboxLayerToOpenLayers l).isSome = true := by
  induction ls generalizing m with
  | nil => exact Or.inl h
  | cons x t ih =>
    rw [List.foldl_cons] at h
    rcases ih _ h with hinit | ⟨l, hl, hlk, hlc⟩
    · rcases hc : convertMapboxLayerToOpenLayers x with _ | s
      · left
        unfold processLayer at hinit
        rwa [hc] at hinit
      · by_cases hk : x.id = k
        · exact Or.inr ⟨x, List.mem_cons_self x t, hk, by rw [hc]; rfl⟩
        · left
          unfold processLayer at hinit
          rw [hc, mapGet_mapSet_ne m x.id k s (fun hh => hk hh.symm)] at hinit
          exact hinit
    · exact Or.inr ⟨l, List.mem_cons_of_mem x hl, hlk, hlc⟩

lemma convert_isSome_iff (l : MLayer) :
    (convertMapboxLayerToOpenLayers l).isSome = supportedType l.type := by
  unfold convertMapboxLayerToOpenLayers supportedType
  split_ifs <;> simp_all [beq_iff_eq, beq_eq_false_iff_ne]

lemma convert_none_of_unsupported (l : MLayer) (h : supportedType l.type = false) :
    convertMapboxLayerToOpenLayers l = none := by
  cases hc : convertMapboxLayerToOpenLayers l with
  | none => rfl
  | some s =>
    have hiff := convert_isSome_iff l
    rw [hc, h] at hiff
    cases hiff

/-- The key sequence of the cache (insertion order). -/
def cacheKeys (m : StyleCache) : List String :=
  m.map Prod.fst

lemma cacheKeys_cons (p : String × Style) (t : StyleCache) :
    cacheKeys (p :: t) = p.1 :: cacheKeys t := rfl

lemma keys_mapSet (m : StyleCache) (k : String) (v : Style) :
    cacheKeys (mapSet m k v)
      = if k ∈ cacheKeys m then cacheKeys m else cacheKeys m ++ [k] := by
  induction m with
  | nil => simp [mapSet, cacheKeys]
  | cons p t ih =>
    by_cases hp : p.1 = k
    · have hpb : (p.1 == k) = true := beq_iff_eq.mpr hp
      simp only [mapSet, hpb, if_true, cacheKeys_cons, List.mem_cons]
      simp [hp]
    · have hpb : (p.1 == k) = false := beq_eq_false_iff_ne.mpr hp
      have hkp : ¬ (k = p.1) := fun h => hp h.symm
      simp only [mapSet, hpb, Bool.false_eq_true, if_false, cacheKeys_cons, List.mem_cons]
      rw [ih]
      by_cases hmem : k ∈ cacheKeys t
      · simp [hkp, hmem]
      · simp [hkp, hmem]

lemma nodup_keys_mapSet (m : StyleCache) (k : String) (v : Style)
    (h : (cacheKeys m).Nodup) : (cacheKeys (mapSet m k v)).Nodup := by
  rw [keys_mapSet]
  by_cases hm : k ∈ cacheKeys m
  · simpa [hm] using h
  · simp only [hm, if_false]
    rw [List.nodup_append]
    exact ⟨h, List.nodup_singleton k, fun a ha hb => by
      simp only [List.mem_singleton] at hb
      exact hm (hb ▸ ha)⟩

lemma nodup_keys_processLayer (m : StyleCache) (l : MLayer)
    (h : (cacheKeys m).Nodup) : (cacheKeys (processLayer m l)).Nodup := by
  unfold processLayer
  cases convertMapboxLayerToOpenLayers l with
  | none => exact h
  | some s => exact nodup_keys_mapSet m l.id s h

lemma nodup_keys_foldl (ls : List MLayer) (m : StyleCache)
    (h : (cacheKeys m).Nodup) : (cacheKeys (ls.foldl processLayer m)).Nodup := by
  induction ls generalizing m with
  | nil => exact h
  | cons x t ih => exact ih _ (nodup_keys_processLayer m x h)

lemma mem_keys_of_mapGet (m : StyleCache) (k : String) (h : mapGet m k ≠ none) :
    k ∈ cacheKeys m := by
  unfold mapGet at h
  cases hf : m.find? (fun p => p.1 == k) with
  | none => rw [hf] at h; simp at h
  | some p =>
    have hp : (p.1 == k) = true := (List.find?_eq_some.mp hf).1
    have hmem : p ∈ m := List.mem_of_find?_eq_some hf
    have hpk : p.1 = k := beq_iff_eq.mp hp
    exact hpk ▸ List.mem_map_of_mem Prod.fst hmem

/-- C3 (amended): for every document containing two layers that share the
same id, where the later of the two compiles successfully (supported type),
compiling yields exactly one cache entry for that id, and that entry holds
the later layer's compiled descriptor (last-write-wins in document order).
When the later layer is of an unsupported type it contributes no descriptor
and the earlier entry survives instead (see the counterexample). -/
theorem preprocessDuplicateIdLastWins
    (pre mid post : List MLayer) (a b : MLayer) (sb : Style)
    (hid : a.id = b.id)
    (hb : convertMapboxLayerToOpenLayers b = some sb)
    (hpost : ∀ c ∈ post, c.id ≠ b.id) :
    mapGet (preprocessStyles [] (some { layers := pre ++ [a] ++ mid ++ [b] ++ post })) a.id
        = some sb
    ∧ (cacheKeys (preprocessStyles [] (some { layers := pre ++ [a] ++ mid ++ [b] ++ post }))).count
        a.id = 1 := by
  have hpost' : ∀ c ∈ post, c.id ≠ a.id := by
    intro c hc
    rw [hid]
    exact hpost c hc
  have key : mapGet (preprocessStyles [] (some { layers := pre ++ [a] ++ mid ++ [b] ++ post }))
      a.id = some sb := by
    show mapGet ((pre ++ [a] ++ mid ++ [b] ++ post).foldl processLayer []) a.id = some sb
    simp only [List.singleton_append, List.foldl_append, List.foldl_cons, List.foldl_nil]
    rw [foldl_skip _ _ _ hpost']
    have hpb : processLayer
        (List.foldl processLayer (processLayer (List.foldl processLayer [] pre) a) mid) b
        = mapSet (List.foldl processLayer (processLayer (List.foldl processLayer [] pre) a) mid)
            b.id sb := by
      unfold processLayer
      rw [hb]
    rw [hpb, hid, mapGet_mapSet_self]
  refine ⟨key, ?_⟩
  have hnodup : (cacheKeys (preprocessStyles []
      (some { layers := pre ++ [a] ++ mid ++ [b] ++ post }))).Nodup :=
    nodup_keys_foldl _ [] (by simp [cacheKeys])
  have hmem : a.id ∈ cacheKeys (preprocessStyles []
      (some { layers := pre ++ [a] ++ mid ++ [b] ++ post })) :=
    mem_keys_of_mapGet _ a.id (by rw [key]; exact Option.some_ne_none sb)
  exact List.count_eq_one_of_mem hnodup hmem

/-- C10: when two layers share an id, the earlier one has a supported type
and the later one an unsupported type, the later layer compiles to nothing
and the cache keeps the earlier layer's descriptor under that id. -/
theorem preprocessUnsupportedLaterKeepsEarlier
    (pre mid post : List MLayer) (a b : MLayer)
    (hid : a.id = b.id)
    (hsa : supportedType a.type = true)
    (hsb : supportedType b.type = false)
    (hmid : ∀ c ∈ mid, c.id ≠ a.id)
    (hpost : ∀ c ∈ post, c.id ≠ a.id) :
    mapGet (preprocessStyles [] (some { layers := pre ++ [a] ++ mid ++ [b] ++ post })) a.id
        = convertMapboxLayerToOpenLayers a
    ∧ (convertMapboxLayerToOpenLayers a).isSome = true := by
  have hsa' : (convertMapboxLayerToOpenLayers a).isSome = true := by
    rw [convert_isSome_iff]
    exact hsa
  obtain ⟨sa, hsaeq⟩ := Option.isSome_iff_exists.mp hsa'
  refine ⟨?_, hsa'⟩
  show mapGet ((pre ++ [a] ++ mid ++ [b] ++ post).foldl processLayer []) a.id
      = convertMapboxLayerToOpenLayers a
  simp only [List.singleton_append, List.foldl_append, List.foldl_cons, List.foldl_nil]
  rw [foldl_skip _ _ _ hpost]
  have hpb : processLayer
      (List.foldl processLayer (processLayer (List.foldl processLayer [] pre) a) mid) b
      = List.foldl processLayer (processLayer (List.foldl processLayer [] pre) a) mid := by
    unfold processLayer
    rw [convert_none_of_unsupported b hsb]
  rw [hpb, foldl_skip _ _ _ hmid]
  have hpa : processLayer (List.foldl processLayer [] pre) a
      = mapSet (List.foldl processLayer [] pre) a.id sa := by
    unfold processLayer
    rw [hsaeq]
  rw [hpa, mapGet_mapSet_self, hsaeq]

/-- C8: every layer whose type is not one of fill, line, symbol, circle,
background compiles to nothing and so contributes no cache entry; every
cache entry of a compiled document comes from a supported-type layer with
that id; and every supported-type layer of the document does leave the
cache with an entry under its id, so compilation of the other layers
proceeds despite unsupported ones (the code logs a warning and never
throws; the embedding is a total function). -/
theorem unsupportedTypesOmitted :
    (∀ l : MLayer, supportedType l.type = false → convertMapboxLayerToOpenLayers l = none)
    ∧ (∀ (st : MapboxGLStyle) (k : String),
        mapGet (preprocessStyles [] (some st)) k ≠ none →
          ∃ l, l ∈ st.layers ∧ l.id = k ∧ supportedType l.type = true)
    ∧ (∀ (st : MapboxGLStyle) (l : MLayer), l ∈ st.layers → supportedType l.type = true →
        mapGet (preprocessStyles [] (some st)) l.id ≠ none) := by
  refine ⟨convert_none_of_unsupported, ?_, ?_⟩
  · intro st k h
    rcases foldl_source st.layers [] k h with h0 | ⟨l, hl, hk, hc⟩
    · exact absurd rfl h0
    · rw [convert_isSome_iff] at hc
      exact ⟨l, hl, hk, hc⟩
  · intro st l hl hs
    apply foldl_present st.layers [] l hl
    rw [convert_isSome_iff]
    exact hs

/-- Witness for C8 at a concrete two-layer document: the raster layer
compiles to nothing while the fill layer still gets its cache entry. -/
theorem unsupportedTypesOmitted_witness :
    convertMapboxLayerToOpenLayers { id := "sat", type := "raster" } = none
    ∧ mapGet (preprocessStyles [] (some { layers :=
        [{ id := "land", type := "fill" }, { id := "sat", type := "raster" }] })) "land"
        ≠ none := by
  constructor
  · exact unsupportedTypesOmitted.1 { id := "sat", type := "raster" } (by decide)
  · exact unsupportedTypesOmitted.2.2
      { layers := [{ id := "land", type := "fill" }, { id := "sat", type := "raster" }] }
      { id := "land", type := "fill" } (by simp) (by decide)

/-- Witness for C3 at a two-layer document with duplicate id `w`: the later
(line) layer's descriptor wins. -/
theorem preprocessDuplicateIdLastWins_witness :
    mapGet (preprocessStyles [] (some { layers :=
        [{ id := "w", type := "fill" }, { id := "w", type := "line" }] })) "w"
      = some (createLineStyle { id := "w", type := "line" }) := by
  exact (preprocessDuplicateIdLastWins [] [] []
      { id := "w", type := "fill" } { id := "w", type := "line" }
      (createLineStyle { id := "w", type := "line" }) rfl rfl (by simp)).1

/-- C3 counterexample: with duplicate id `a` where the later layer has the
unsupported type `raster`, the cache holds the EARLIER (fill) layer's
descriptor, and the later layer has no compiled descriptor at all — so the
claimed unconditional last-write-wins is false. -/
theorem preprocessDuplicateId_counterexample :
    mapGet (preprocessStyles [] (some { layers :=
        [{ id := "a", type := "fill" }, { id := "a", type := "raster" }] })) "a"
      = some (createFillStyle { id := "a", type := "fill" })
    ∧ convertMapboxLayerToOpenLayers { id := "a", type := "raster" } = none := by
  exact ⟨rfl, rfl⟩

/-- Witness for C10 at a concrete document: circle layer then heatmap layer,
both with id `dup`; the circle layer's descriptor survives. -/
theorem preprocessUnsupportedLaterKeepsEarlier_witness :
    mapGet (preprocessStyles [] (some { layers :=
        [{ id := "dup", type := "circle" }, { id := "dup", type := "heatmap" }] })) "dup"
      = convertMapboxLayerToOpenLayers { id := "dup", type := "circle" } := by
  exact (preprocessUnsupportedLaterKeepsEarlier [] [] []
      { id := "dup", type := "circle" } { id := "dup", type := "heatmap" }
      rfl (by decide) (by decide) (by simp) (by simp)).1

/-- C1 (amended): when the feature's extracted source-layer value is truthy,
a document layer that itself carries a non-empty `source-layer` is a
candidate exactly when that binding strictly equals the feature's value —
geometry is not consulted for such layers; but a layer whose `source-layer`
is absent or empty is NOT excluded: the predicate falls through to
geometry-type matching for it. -/
theorem sourceLayerMatchRule (sl : JVal) (gt : Option String) (layer : MLayer)
    (hsl : truthy sl = true) :
    (∀ s, layer.sourceLayer = some s → s ≠ "" →
        (layerFilter (some sl) gt layer = true ↔ sl = .str s))
    ∧ ((layer.sourceLayer = none ∨ layer.sourceLayer = some "") →
        layerFilter (some sl) gt layer = geometryCandidate gt layer) := by
  constructor
  · intro s hs hne
    unfold layerFilter
    rw [hs]
    have h2 : (s != "") = true := bne_iff_ne.mpr hne
    simp only [truthyOpt, hsl, h2, Bool.and_self, if_true]
    cases sl with
    | str a => simp [jvalEqStrOpt, beq_iff_eq]
    | num q => simp [jvalEqStrOpt]
    | boolean b => simp [jvalEqStrOpt]
    | arr xs => simp [jvalEqStrOpt]
    | null => simp [jvalEqStrOpt]
  · intro hcase
    unfold layerFilter
    rcases hcase with h | h <;> rw [h] <;> simp

/-- Witness for C1 at a concrete truthy source-layer value: a layer bound to
source-layer `water` is a candidate for a feature carrying `water`. -/
theorem sourceLayerMatchRule_witness :
    layerFilter (some (.str "water")) (some "Polygon")
      { id := "w", type := "line", sourceLayer := some "water" } = true := by
  exact ((sourceLayerMatchRule (.str "water") (some "Polygon")
      { id := "w", type := "line", sourceLayer := some "water" }
      (by decide)).1 "water" rfl (by decide)).mpr rfl

/-- C1 counterexample layer: a fill layer with no source-layer binding. -/
def plainFillLayer : MLayer := { id := "plain-fill", type := "fill" }

/-- C1 counterexample feature: a Polygon feature whose properties carry the
source-layer name `water`. -/
def waterPolygonNoBindingFeature : RFeature :=
  { geometryType := some "Polygon", properties := [("layer", .str "water")] }

/-- C1 counterexample: the feature's source-layer name is the non-empty
`water`, yet a layer whose own `source-layer` is absent (hence not equal to
`water`) IS a matching candidate — geometry is consulted for it, and the
resolver returns that layer's compiled style.  This falsifies the claimed
equivalence "candidate iff layer.sourceLayer = sourceLayerName". -/
theorem sourceLayerMatch_counterexample :
    sourceLayerNameOf waterPolygonNoBindingFeature.properties = some (.str "water")
    ∧ layerFilter (sourceLayerNameOf waterPolygonNoBindingFeature.properties)
        waterPolygonNoBindingFeature.geometryType plainFillLayer = true
    ∧ plainFillLayer.sourceLayer ≠ some "water"
    ∧ pdokStyleFunction (some { layers := [plainFillLayer] })
        (preprocessStyles [] (some { layers := [plainFillLayer] }))
        waterPolygonNoBindingFeature
      = createFillStyle plainFillLayer := by
  refine ⟨rfl, rfl, by decide, rfl⟩

/-- The fill layer of the specification's two-layer example document. -/
def waterFillLayer : MLayer :=
  { id := "water", type := "fill", sourceLayer := some "water",
    paint := some [("fill-color", .str "#0000ff"), ("fill-opacity", .num (mkRat 1 2))] }

/-- The line layer of the example document, also bound to source-layer
`water`. -/
def waterLineLayer : MLayer :=
  { id := "water-line", type := "line", sourceLayer := some "water" }

/-- The example document: fill layer first, line layer second. -/
def waterDoc : MapboxGLStyle := { layers := [waterFillLayer, waterLineLayer] }

/-- A Polygon feature carrying source-layer name `water`. -/
def waterPolygonFeature : RFeature :=
  { geometryType := some "Polygon", properties := [("layer", .str "water")] }

/-- C2 counterexample: on the claim's own example the compiled fill colour
string is `rgba(0, 0, 255, 0.5)` — with spaces, as the code's template
literal produces — which is not the string `rgba(0,0,255,0.5)` quoted by
the claim. -/
theorem firstMatchFill_counterexample :
    (pdokStyleFunction (some waterDoc) (preprocessStyles [] (some waterDoc))
        waterPolygonFeature).fill
      = some { color := "rgba(0, 0, 255, 0.5)" }
    ∧ ("rgba(0, 0, 255, 0.5)" : String) ≠ "rgba(0,0,255,0.5)" := by
  exact ⟨rfl, by decide⟩

/-- C2 (amended): on the example document both layers are candidates, in
document order; the resolver returns the compiled style of the first
(the fill layer, cached under id `water`), whose fill resolves to
`rgba(0, 0, 255, 0.5)`. -/
theorem firstMatchWinsOnWaterDoc :
    pdokStyleFunction (some waterDoc) (preprocessStyles [] (some waterDoc)) waterPolygonFeature
      = createFillStyle waterFillLayer
    ∧ waterDoc.layers.filter
        (layerFilter (sourceLayerNameOf waterPolygonFeature.properties)
          waterPolygonFeature.geometryType) = [waterFillLayer, waterLineLayer]
    ∧ mapGet (preprocessStyles [] (some waterDoc)) "water" = some (createFillStyle waterFillLayer)
    ∧ (createFillStyle waterFillLayer).fill = some { color := "rgba(0, 0, 255, 0.5)" } := by
  exact ⟨rfl, rfl, rfl, rfl⟩

lemma jsTernary_isSome {α : Type} (o : Option JVal) (f : JVal → α) :
    (jsTernary o f).isSome = truthyOpt o := by
  cases o with
  | none => rfl
  | some v =>
    unfold jsTernary truthyOpt
    by_cases h : truthy v = true <;> simp [h]

/-- C4 (amended): the fill colour is ColorParser applied to the `||`-defaulted
paint values, where the defaults `#000000` and `1` kick in exactly when the
respective property is absent OR falsy (empty string, the number 0) — JS
truthiness, not mere absence; the width-1 outline stroke exists iff
`fill-outline-color` is present AND truthy; fill styles carry no text or
image part; and a missing paint object behaves as an empty mapping, so
compilation is total. -/
theorem createFillStyleSpec (layer : MLayer) :
    ((createFillStyle layer).fill = some
        { color := parseColor
            (jsOr (getProp (layer.paint.getD []) "fill-color") (.str "#000000"))
            (jsOr (getProp (layer.paint.getD []) "fill-opacity") (.num 1)) })
    ∧ (truthyOpt (getProp (layer.paint.getD []) "fill-color") = false →
        jsOr (getProp (layer.paint.getD []) "fill-color") (.str "#000000") = .str "#000000")
    ∧ (∀ v, getProp (layer.paint.getD []) "fill-color" = some v → truthy v = true →
        jsOr (getProp (layer.paint.getD []) "fill-color") (.str "#000000") = v)
    ∧ (truthyOpt (getProp (layer.paint.getD []) "fill-opacity") = false →
        jsOr (getProp (layer.paint.getD []) "fill-opacity") (.num 1) = .num 1)
    ∧ (∀ v, getProp (layer.paint.getD []) "fill-opacity" = some v → truthy v = true →
        jsOr (getProp (layer.paint.getD []) "fill-opacity") (.num 1) = v)
    ∧ ((createFillStyle layer).stroke.isSome
        = truthyOpt (getProp (layer.paint.getD []) "fill-outline-color"))
    ∧ (∀ v, getProp (layer.paint.getD []) "fill-outline-color" = some v → truthy v = true →
        (createFillStyle layer).stroke = some { color := parseColor v (.num 1), width := .num 1 })
    ∧ ((createFillStyle layer).text = none ∧ (createFillStyle layer).image = none)
    ∧ (layer.paint = none →
        createFillStyle layer = createFillStyle { layer with paint := some [] }) := by
  refine ⟨rfl, ?_, ?_, ?_, ?_, ?_, ?_, ⟨rfl, rfl⟩, ?_⟩
  · exact jsOr_of_falsy
  · intro v hv ht
    rw [hv]
    exact jsOr_of_truthy ht
  · exact jsOr_of_falsy
  · intro v hv ht
    rw [hv]
    exact jsOr_of_truthy ht
  · exact jsTernary_isSome _ _
  · intro v hv ht
    show jsTernary (getProp (layer.paint.getD []) "fill-outline-color") _ = _
    rw [hv]
    unfold jsTernary
    simp [ht]
  · intro h
    unfold createFillStyle
    rw [h]
    rfl

/-- Witness for C4: a present, truthy outline colour yields the width-1
outline stroke built from it. -/
theorem createFillStyleSpec_witness :
    (createFillStyle
      { id := "w", type := "fill",
        paint := some [("fill-color", .str "#123456"),
          ("fill-outline-color", .str "#ffffff")] }).stroke
      = some { color := parseColor (.str "#ffffff") (.num 1), width := .num 1 } := by
  exact (createFillStyleSpec
      { id := "w", type := "fill",
        paint := some [("fill-color", .str "#123456"),
          ("fill-outline-color", .str "#ffffff")] }).2.2.2.2.2.2.1
    (.str "#ffffff") rfl (by decide)

/-- C4 counterexample: with `fill-opacity` PRESENT and equal to 0, the code
uses the default opacity 1 (`0 || 1` is `1` in JS), so the fill colour is
`rgba(0, 0, 0, 1)` — not the `rgba(0, 0, 0, 0)` that parsing with the
present value 0 (as the claim's "default exactly when absent" demands)
would produce. -/
theorem createFillStyle_counterexample :
    (createFillStyle
      { id := "x", type := "fill",
        paint := some [("fill-opacity", .num 0)] }).fill
      = some { color := "rgba(0, 0, 0, 1)" }
    ∧ parseColor (.str "#000000") (.num 0) = "rgba(0, 0, 0, 0)"
    ∧ ("rgba(0, 0, 0, 1)" : String) ≠ "rgba(0, 0, 0, 0)" := by
  exact ⟨rfl, by decide, by decide⟩

/-- C6 (amended): the map component's fallback provider
`createDefaultStyleForGeometry` is the fixed table of the claim —
Polygon/MultiPolygon: fill `rgba(0, 100, 255, 0.3)` + 2px `#0064ff` stroke;
LineString/MultiLineString: 2px `#ff6600` stroke; Point/MultiPoint: the
default point marker (radius 3, red fill, white 1px stroke); everything
else: 1px `#666666` stroke + fill `rgba(255, 255, 255, 0.8)` — and it is
applied both when the whole document is null and for per-feature no-match
(an Unknown-geometry feature with no source-layer name matches no layer).
The BGT layer's whole-layer-failure fallback, however, is a DIFFERENT
table: gray `rgba(200, 200, 200, 0.6)` polygon fill with 1px `#666666`
stroke, 1.5px `#333333` line stroke, radius-4 point marker; it agrees with
the claimed table only on the catch-all bucket. -/
theorem fallbackTables :
    (∀ gt, gt = "Polygon" ∨ gt = "MultiPolygon" →
        createDefaultStyleForGeometry gt
          = { fill := some { color := "rgba(0, 100, 255, 0.3)" },
              stroke := some { color := "#0064ff", width := .num 2 } })
    ∧ (∀ gt, gt = "LineString" ∨ gt = "MultiLineString" →
        createDefaultStyleForGeometry gt
          = { stroke := some { color := "#ff6600", width := .num 2 } })
    ∧ (∀ gt, gt = "Point" ∨ gt = "MultiPoint" →
        createDefaultStyleForGeometry gt = createDefaultPointStyle)
    ∧ (∀ gt, gt ∉ (["Polygon", "MultiPolygon", "LineString", "MultiLineString",
          "Point", "MultiPoint"] : List String) →
        createDefaultStyleForGeometry gt
          = { stroke := some { color := "#666666", width := .num 1 },
              fill := some { color := "rgba(255, 255, 255, 0.8)" } })
    ∧ (∀ (feature : RFeature) (cache : StyleCache),
        pdokStyleFunction none cache feature
          = createDefaultStyleForGeometry (feature.geometryType.getD ""))
    ∧ (∀ (st : MapboxGLStyle) (cache : StyleCache) (f : RFeature),
        f.geometryType = some "Unknown" → sourceLayerNameOf f.properties = none →
        pdokStyleFunction (some st) cache f
          = { stroke := some { color := "#666666", width := .num 1 },
              fill := some { color := "rgba(255, 255, 255, 0.8)" } })
    ∧ (bgtFallbackStyle (some "Polygon")
        = { fill := some { color := "rgba(200, 200, 200, 0.6)" },
            stroke := some { color := "#666666", width := .num 1 } })
    ∧ (bgtFallbackStyle (some "LineString")
        = { stroke := some { color := "#333333", width := .num (mkRat 3 2) } })
    ∧ (bgtFallbackStyle (some "Point")
        = { image := some (.circle
            { radius := .num 4, fill := { color := "#ff0000" },
              stroke := some { color := "#ffffff", width := .num 1 } }) })
    ∧ (∀ gto : Option String,
        gto ∉ ([some "Polygon", some "MultiPolygon", some "LineString",
          some "MultiLineString", some "Point", some "MultiPoint"] : List (Option String)) →
        bgtFallbackStyle gto
          = { stroke := some { color := "#666666", width := .num 1 },
              fill := some { color := "rgba(255, 255, 255, 0.8)" } }) := by
  refine ⟨?_, ?_, ?_, ?_, fun f c => rfl, ?_, rfl, rfl, rfl, ?_⟩
  · intro gt h
    unfold createDefaultStyleForGeometry
    rw [if_pos h]
  · intro gt h
    have h1 : ¬ (gt = "Polygon" ∨ gt = "MultiPolygon") := by
      rcases h with h | h <;> subst h <;> decide
    unfold createDefaultStyleForGeometry
    rw [if_neg h1, if_pos h]
  · intro gt h
    have h1 : ¬ (gt = "Polygon" ∨ gt = "MultiPolygon") := by
      rcases h with h | h <;> subst h <;> decide
    have h2 : ¬ (gt = "LineString" ∨ gt = "MultiLineString") := by
      rcases h with h | h <;> subst h <;> decide
    unfold createDefaultStyleForGeometry
    rw [if_neg h1, if_neg h2, if_pos h]
  · intro gt h
    simp only [List.mem_cons, List.mem_singleton, not_or] at h
    obtain ⟨n1, n2, n3, n4, n5, n6⟩ := h
    unfold createDefaultStyleForGeometry
    rw [if_neg (by tauto), if_neg (by tauto), if_neg (by tauto)]
  · intro st cache f hg hs
    have hfil : st.layers.filter (layerFilter none (some "Unknown")) = [] := by
      rw [List.filter_eq_nil_iff]
      intro l hl
      simp [layerFilter, truthyOpt, geometryCandidate]
    simp only [pdokStyleFunction, hg, hs, hfil]
    rfl
  · intro gto h
    simp only [List.mem_cons, List.mem_singleton, not_or] at h
    obtain ⟨n1, n2, n3, n4, n5, n6⟩ := h
    unfold bgtFallbackStyle
    rw [if_neg (by tauto), if_neg (by tauto), if_neg (by tauto)]

/-- Witness for C6: the catch-all buckets of both tables at the concrete
geometry type `GeometryCollection`, and the Unknown-geometry resolution
against a concrete one-layer document. -/
theorem fallbackTables_witness :
    createDefaultStyleForGeometry "GeometryCollection"
      = { stroke := some { color := "#666666", width := .num 1 },
          fill := some { color := "rgba(255, 255, 255, 0.8)" } }
    ∧ pdokStyleFunction (some { layers := [plainFillLayer] }) []
        { geometryType := some "Unknown", properties := [] }
      = { stroke := some { color := "#666666", width := .num 1 },
          fill := some { color := "rgba(255, 255, 255, 0.8)" } } := by
  constructor
  · exact fallbackTables.2.2.2.1 "GeometryCollection" (by decide)
  · exact fallbackTables.2.2.2.2.2.1 { layers := [plainFillLayer] } []
      { geometryType := some "Unknown", properties := [] } rfl rfl

/-- C6 counterexample: the BGT layer's whole-layer-failure fallback gives a
Polygon feature the gray fill `rgba(200, 200, 200, 0.6)`, not the
`rgba(0, 100, 255, 0.3)` fill the claimed single fixed table prescribes, so
the claimed table is not the one applied for that whole-layer failure. -/
theorem bgtFallback_counterexample :
    (bgtFallbackStyle (some "Polygon")).fill = some { color := "rgba(200, 200, 200, 0.6)" }
    ∧ (createDefaultStyleForGeometry "Polygon").fill = some { color := "rgba(0, 100, 255, 0.3)" }
    ∧ ("rgba(200, 200, 200, 0.6)" : String) ≠ "rgba(0, 100, 255, 0.3)"
    ∧ (bgtFallbackStyle (some "Point")).image
        ≠ (createDefaultStyleForGeometry "Point").image := by
  refine ⟨rfl, rfl, by decide, ?_⟩
  intro h
  have h4 : (JVal.num 4) = (JVal.num 3) := by
    have himg : some (ImageStyle.circle
        { radius := .num 4, fill := { color := "#ff0000" },
          stroke := some { color := "#ffffff", width := .num 1 } })
        = some (ImageStyle.circle
        { radius := .num 3, fill := { color := "#ff0000" },
          stroke := some { color := "#ffffff", width := .num 1 } }) := h
    injection himg with himg2
    injection himg2 with himg3
    exact congrArg CircleStyle.radius himg3
  injection h4 with h5
  exact absurd h5 (by norm_num)
